import Mathlib

/-!
Verification of the `public-ip-address` crate's provider registry, lookup
service and response model against its specification.

Strings are modelled as `List Char` (`Str`).  External library calls
(`serde_json::from_str`, `str::parse::<IpAddr>`) are modelled as explicit
function parameters, so every claim quantifies over their behaviour.
Rust's `char`-level helpers (`to_lowercase`, `char::is_whitespace`) are
modelled on their ASCII fragment, which is the fragment exercised by the
provider-name grammar.
-/

/-- Strings of the Rust source, modelled as lists of characters. -/
abbrev Str := List Char

/-- Errors of the crate.  The enum itself lives in `src/lookup/error.rs`,
which is not part of the source snapshot; the variants `GenericError`,
`TooManyRequests`, `RequestStatus` and `ReqwestError` are taken from their
construction sites in `src/lookup/mod.rs`.  `ParseError` is modelled from
the spec: the spec classifies malformed/unexpected JSON bodies as
`ParseError`, which is the image of the `serde_json::Error` conversion in
the missing `error.rs`.  `ReqwestError` carries the transport failure the
spec calls `TransportError`. -/
inductive LookupError where
  | GenericError (msg : Str)
  | TooManyRequests (msg : Str)
  | RequestStatus (msg : Str)
  | ReqwestError (e : Str)
  | ParseError (msg : Str)
deriving DecidableEq, Repr

/-- `LookupProvider` from `src/lookup/mod.rs` lines 52-87: the closed set of
lookup service providers; `AbstractApi`, `IpGeolocation` and `IpData` carry
an optional API key, `Mock` carries the IP it echoes. -/
inductive LookupProvider where
  | FreeIpApi
  | IfConfig
  | IpInfo
  | MyIp
  | IpApiCom
  | IpWhoIs
  | IpApiCo
  | IpApiIo
  | IpBase
  | IpLocateIo
  | IpLeak
  | Mullvad
  | AbstractApi (key : Option Str)
  | IpGeolocation (key : Option Str)
  | IpData (key : Option Str)
  | Mock (ip : Str)
deriving DecidableEq, Repr

/-- The equality test generated by `#[derive(PartialEq)]` on
`LookupProvider`: same variant, and field-wise `==` on the payloads. -/
def LookupProvider.rustEq : LookupProvider → LookupProvider → Bool
  | .FreeIpApi, .FreeIpApi => true
  | .IfConfig, .IfConfig => true
  | .IpInfo, .IpInfo => true
  | .MyIp, .MyIp => true
  | .IpApiCom, .IpApiCom => true
  | .IpWhoIs, .IpWhoIs => true
  | .IpApiCo, .IpApiCo => true
  | .IpApiIo, .IpApiIo => true
  | .IpBase, .IpBase => true
  | .IpLocateIo, .IpLocateIo => true
  | .IpLeak, .IpLeak => true
  | .Mullvad, .Mullvad => true
  | .AbstractApi k1, .AbstractApi k2 => k1 == k2
  | .IpGeolocation k1, .IpGeolocation k2 => k1 == k2
  | .IpData k1, .IpData k2 => k1 == k2
  | .Mock ip1, .Mock ip2 => ip1 == ip2
  | _, _ => false

/-- ASCII fragment of Rust's `char::is_whitespace` (Unicode `White_Space`):
space, tab, line feed, vertical tab, form feed, carriage return. -/
def isWs (c : Char) : Bool :=
  c = ' ' || c = '\t' || c = '\n' || c = '\x0b' || c = '\x0c' || c = '\r'

/-- ASCII fragment of Rust's `char::to_lowercase` (as used by
`str::to_lowercase`): maps the 26 basic latin capitals to their lower-case
forms and fixes everything else. -/
def lowerChar : Char → Char
  | 'A' => 'a'
  | 'B' => 'b'
  | 'C' => 'c'
  | 'D' => 'd'
  | 'E' => 'e'
  | 'F' => 'f'
  | 'G' => 'g'
  | 'H' => 'h'
  | 'I' => 'i'
  | 'J' => 'j'
  | 'K' => 'k'
  | 'L' => 'l'
  | 'M' => 'm'
  | 'N' => 'n'
  | 'O' => 'o'
  | 'P' => 'p'
  | 'Q' => 'q'
  | 'R' => 'r'
  | 'S' => 's'
  | 'T' => 't'
  | 'U' => 'u'
  | 'V' => 'v'
  | 'W' => 'w'
  | 'X' => 'x'
  | 'Y' => 'y'
  | 'Z' => 'z'
  | c => c

/-- Rust `str::trim`, left half: drop leading whitespace. -/
def trimLeft (s : Str) : Str := s.dropWhile isWs

/-- Rust `str::trim`, right half: drop trailing whitespace. -/
def trimRight (s : Str) : Str := (s.reverse.dropWhile isWs).reverse

/-- Rust `str::trim`: drop whitespace from both ends. -/
def trim (s : Str) : Str := trimRight (trimLeft s)

/-- Worker for `words`: `cur` holds the current in-progress word reversed. -/
def wordsAux (cur : Str) : Str → List Str
  | [] => if cur = [] then [] else [cur.reverse]
  | c :: cs =>
    if isWs c then
      if cur = [] then wordsAux [] cs else cur.reverse :: wordsAux [] cs
    else
      wordsAux (c :: cur) cs

/-- Rust `str::split_whitespace` collected into a `Vec`: the maximal
whitespace-free non-empty chunks, in order. -/
def words (s : Str) : List Str := wordsAux [] s

/-- The token-level body of `LookupProvider::from_str`
(`src/lookup/mod.rs` lines 106-132): `first()` with the
"No provider given" error, `get(1).cloned()` for the key, then the
provider-name match with its "Provider not found" fallback. -/
def parseTokens (parts : List Str) : Except LookupError LookupProvider :=
  match parts with
  | [] => .error (.GenericError ("No provider given".toList))
  | p :: rest =>
    let k : Option Str := rest.head?
    if p = "freeipapi".toList then .ok .FreeIpApi
    else if p = "ifconfig".toList then .ok .IfConfig
    else if p = "ipinfo".toList then .ok .IpInfo
    else if p = "myip".toList then .ok .MyIp
    else if p = "ipapicom".toList then .ok .IpApiCom
    else if p = "ipwhois".toList then .ok .IpWhoIs
    else if p = "ipapico".toList then .ok .IpApiCo
    else if p = "ipapiio".toList then .ok .IpApiIo
    else if p = "ipbase".toList then .ok .IpBase
    else if p = "iplocateio".toList then .ok .IpLocateIo
    else if p = "ipleak".toList then .ok .IpLeak
    else if p = "mullvad".toList then .ok .Mullvad
    else if p = "abstract".toList then .ok (.AbstractApi k)
    else if p = "ipgeolocation".toList then .ok (.IpGeolocation k)
    else if p = "ipdata".toList then .ok (.IpData k)
    else .error (.GenericError (("Provider not found: ".toList) ++ p))

/-- `LookupProvider::from_str` (`src/lookup/mod.rs` lines 98-133):
trim and lowercase the input, split it on whitespace, then match the first
token against the provider names, taking the second token as the key. -/
def fromStr (s : Str) : Except LookupError LookupProvider :=
  parseTokens (words ((trim s).map lowerChar))

/-- The recognized provider names: the domain of the `match` in
`LookupProvider::from_str`. -/
def providerNames : List Str :=
  ["freeipapi".toList, "ifconfig".toList, "ipinfo".toList, "myip".toList,
   "ipapicom".toList, "ipwhois".toList, "ipapico".toList, "ipapiio".toList,
   "ipbase".toList, "iplocateio".toList, "ipleak".toList, "mullvad".toList,
   "abstract".toList, "ipgeolocation".toList, "ipdata".toList]

instance {ε α : Type} [DecidableEq ε] [DecidableEq α] : DecidableEq (Except ε α) := fun a b =>
  match a, b with
  | .error x, .error y =>
    if h : x = y then .isTrue (by rw [h]) else .isFalse (by intro hc; cases hc; exact h rfl)
  | .ok x, .ok y =>
    if h : x = y then .isTrue (by rw [h]) else .isFalse (by intro hc; cases hc; exact h rfl)
  | .error _, .ok _ => .isFalse (by intro hc; cases hc)
  | .ok _, .error _ => .isFalse (by intro hc; cases hc)

/-- Repr of an HTTP status code, used inside the error messages that
`handle_response` formats. -/
def statusRepr (n : Nat) : Str := Nat.toDigits 10 n

/-- A received HTTP response, as far as `handle_response` observes it:
its status code, and the outcome of reading its body with
`Response::text()` (which itself can fail mid-stream with a transport
error). -/
structure Response where
  status : Nat
  text : Except Str Str

/-- `handle_response` from `src/lookup/mod.rs` lines 204-216: a transport
failure becomes `ReqwestError`; status 200 yields the body text; status 429
becomes `TooManyRequests`; any other status becomes `RequestStatus`. -/
def handle_response (response : Except Str Response) : Except LookupError Str :=
  match response with
  | .ok r =>
    if r.status = 200 then
      match r.text with
      | .ok t => .ok t
      | .error e => .error (.ReqwestError e)
    else if r.status = 429 then
      .error (.TooManyRequests (("Too many requests: ".toList) ++ statusRepr r.status))
    else
      .error (.RequestStatus (("Status: ".toList) ++ statusRepr r.status))
  | .error e => .error (.ReqwestError e)

/-- IP addresses (`std::net::IpAddr`), as plain data. -/
inductive IpAddr where
  | v4 (a b c d : Nat)
  | v6 (a b c d e f g h : Nat)
deriving DecidableEq, Repr

/-- `Ipv4Addr::new(0, 0, 0, 0)`, the unspecified address the adapters
degrade to when a provider's `ip` string does not parse. -/
def unspecifiedIp : IpAddr := .v4 0 0 0 0

/-- `LookupResponse` from `src/response.rs` lines 10-32: the canonical
record every adapter normalizes into. -/
structure LookupResponse where
  ip : IpAddr
  continent : Option Str
  country : Option Str
  country_code : Option Str
  region : Option Str
  postal_code : Option Str
  city : Option Str
  latitude : Option Float
  longitude : Option Float
  time_zone : Option Str
  asn : Option Str
  asn_org : Option Str
  hostname : Option Str
  is_proxy : Option Bool
  provider : LookupProvider

/-- `LookupResponse::new` from `src/response.rs` lines 36-54: every
optional field starts out `None`. -/
def LookupResponse.new (ip : IpAddr) (provider : LookupProvider) : LookupResponse where
  ip := ip
  continent := none
  country := none
  country_code := none
  region := none
  postal_code := none
  city := none
  latitude := none
  longitude := none
  time_zone := none
  asn := none
  asn_org := none
  hostname := none
  is_proxy := none
  provider := provider

/-- The `Provider` trait object held by `LookupService`
(`src/lookup/mod.rs` lines 45-49 and 169-171): its API request is one
blocking I/O action whose outcome we model as data, its parser is a
function of the body. -/
structure Provider where
  make_api_request : Except LookupError Str
  parse_reply : Str → Except LookupError LookupResponse
  get_type : LookupProvider

/-- `LookupService::make_request` from `src/lookup/mod.rs` lines 197-200:
`let response = self.provider.make_api_request()?;
 self.provider.parse_reply(response)`. -/
def LookupService.make_request (provider : Provider) : Except LookupError LookupResponse :=
  match provider.make_api_request with
  | .error e => .error e
  | .ok response => provider.parse_reply response

/-- Rust `i64::to_string`: sign followed by decimal digits. -/
def intToStr (i : Int) : Str :=
  if i < 0 then '-' :: Nat.toDigits 10 i.natAbs else Nat.toDigits 10 i.toNat

/-- `Asn` from `src/lookup/ipdata.rs` lines 61-69. -/
structure IpDataAsn where
  asn : Option Str
  name : Option Str
  domain : Option Str
  route : Option Str
  service_type : Option Str

/-- `Carrier` from `src/lookup/ipdata.rs` lines 71-76. -/
structure IpDataCarrier where
  name : Option Str
  mcc : Option Str
  mnc : Option Str

/-- `Timezone` from `src/lookup/ipdata.rs` lines 56-59. -/
structure IpDataTimezone where
  name : Option Str

/-- `Blocklist` from `src/lookup/ipdata.rs` lines 48-54. -/
structure IpDataBlocklist where
  name : Option Str
  site : Option Str
  block_type : Option Str

/-- `Threat` from `src/lookup/ipdata.rs` lines 34-46. -/
structure IpDataThreat where
  is_vpn : Option Bool
  is_tor : Option Bool
  is_proxy : Option Bool
  is_datacenter : Option Bool
  is_anonymous : Option Bool
  is_known_attacker : Option Bool
  is_known_abuser : Option Bool
  is_threat : Option Bool
  is_bogon : Option Bool
  blocklists : Option (List IpDataBlocklist)

/-- `IpDataResponse` from `src/lookup/ipdata.rs` lines 12-32. -/
structure IpDataResponse where
  ip : Str
  is_eu : Option Bool
  city : Option Str
  region : Option Str
  region_code : Option Str
  region_type : Option Str
  country_name : Option Str
  country_code : Option Str
  continent_name : Option Str
  continent_code : Option Str
  longitude : Option Float
  latitude : Option Float
  postal : Option Str
  calling_code : Option Str
  asn : Option IpDataAsn
  carrier : Option IpDataCarrier
  time_zone : Option IpDataTimezone
  threat : Option IpDataThreat

/-- `IpDataResponse::into_response` from `src/lookup/ipdata.rs` lines
84-111.  `parseIp` models `str::parse::<IpAddr>`; an unparseable `ip`
string degrades to `Ipv4Addr::new(0, 0, 0, 0)` via `unwrap_or`.  The
provider is stamped `IpData(None)`. -/
def IpDataResponse.into_response (parseIp : Str → Option IpAddr)
    (r : IpDataResponse) : LookupResponse :=
  let response := LookupResponse.new ((parseIp r.ip).getD unspecifiedIp)
    (.IpData none)
  let response := { response with
    continent := r.continent_name
    country := r.country_name
    country_code := r.country_code
    region := r.region
    postal_code := r.postal
    city := r.city
    latitude := r.latitude
    longitude := r.longitude }
  let response := match r.time_zone with
    | some time_zone => { response with time_zone := time_zone.name }
    | none => response
  let response := match r.asn with
    | some asn => { response with asn_org := asn.name, asn := asn.asn }
    | none => response
  let response := match r.threat with
    | some threat => { response with is_proxy := threat.is_proxy }
    | none => response
  response

/-- `IpDataResponse::parse` from `src/lookup/ipdata.rs` lines 79-82.
`deser` models `serde_json::from_str::<IpDataResponse>`; its error is
converted by the `?` operator through `error.rs` (absent from the
snapshot), modelled from the spec as `ParseError`. -/
def IpDataResponse.parse (deser : Str → Except Str IpDataResponse)
    (input : Str) : Except LookupError IpDataResponse :=
  match deser input with
  | .error e => .error (.ParseError e)
  | .ok deserialized => .ok deserialized

/-- `<IpData as Provider>::parse_reply` from `src/lookup/ipdata.rs` lines
135-138.  `key` is the adapter's API key (`IpData::new(key)`); the source
body never reads it. -/
def IpData.parse_reply (key : Option Str) (deser : Str → Except Str IpDataResponse)
    (parseIp : Str → Option IpAddr) (json : Str) : Except LookupError LookupResponse :=
  match IpDataResponse.parse deser json with
  | .error e => .error e
  | .ok response => .ok (response.into_response parseIp)

/-- `<IpData as Provider>::get_type` from `src/lookup/ipdata.rs` lines
140-142: always `IpData(None)`, whatever key the adapter holds. -/
def IpData.get_type (key : Option Str) : LookupProvider :=
  .IpData none

/-- `IpLeakResponse` from `src/lookup/ipleak.rs` lines 12-29. -/
structure IpLeakResponse where
  ip : Str
  city_name : Option Str
  region_name : Option Str
  region_code : Option Str
  country_name : Option Str
  country_code : Option Str
  continent_name : Option Str
  continent_code : Option Str
  postal_code : Option Str
  latitude : Option Float
  longitude : Option Float
  time_zone : Option Str
  isp_name : Option Str
  as_number : Option Int
  reverse : Option Str

/-- `IpLeakResponse::into_response` from `src/lookup/ipleak.rs` lines
37-59: unparseable `ip` degrades to the unspecified address, provider is
`IpLeak`, `as_number` is rendered with `to_string`. -/
def IpLeakResponse.into_response (parseIp : Str → Option IpAddr)
    (r : IpLeakResponse) : LookupResponse :=
  let response := LookupResponse.new ((parseIp r.ip).getD unspecifiedIp)
    .IpLeak
  let response := { response with
    country := r.country_name
    country_code := r.country_code
    region := r.region_name
    postal_code := r.postal_code
    continent := r.continent_name
    city := r.city_name
    latitude := r.latitude
    longitude := r.longitude
    time_zone := r.time_zone
    asn_org := r.isp_name }
  let response := match r.as_number with
    | some asn => { response with asn := some (intToStr asn) }
    | none => response
  { response with hostname := r.reverse }

/-- `IpLeakResponse::parse` from `src/lookup/ipleak.rs` lines 32-35, with
`serde_json::from_str::<IpLeakResponse>` as `deser`. -/
def IpLeakResponse.parse (deser : Str → Except Str IpLeakResponse)
    (input : Str) : Except LookupError IpLeakResponse :=
  match deser input with
  | .error e => .error (.ParseError e)
  | .ok deserialized => .ok deserialized

/-- `<IpLeak as Provider>::parse_reply` from `src/lookup/ipleak.rs` lines
74-77. -/
def IpLeak.parse_reply (deser : Str → Except Str IpLeakResponse)
    (parseIp : Str → Option IpAddr) (json : Str) : Except LookupError LookupResponse :=
  match IpLeakResponse.parse deser json with
  | .error e => .error e
  | .ok response => .ok (response.into_response parseIp)

/-- `IpLocateIoResponse` from `src/lookup/iplocateio.rs` lines 12-33
(`threat` flattened to its single `is_proxy` field). -/
structure IpLocateIoThreat where
  is_proxy : Option Bool

/-- `IpLocateIoResponse` from `src/lookup/iplocateio.rs` lines 12-28. -/
structure IpLocateIoResponse where
  ip : Str
  country : Option Str
  country_code : Option Str
  is_eu : Option Bool
  city : Option Str
  continent : Option Str
  latitude : Option Float
  longitude : Option Float
  time_zone : Option Str
  postal_code : Option Str
  subdivision : Option Str
  org : Option Str
  asn : Option Str
  threat : Option IpLocateIoThreat

/-- `IpLocateIoResponse::into_response` from `src/lookup/iplocateio.rs`
lines 36-58: unparseable `ip` degrades to the unspecified address,
provider is `IpLocateIo`. -/
def IpLocateIoResponse.into_response (parseIp : Str → Option IpAddr)
    (r : IpLocateIoResponse) : LookupResponse :=
  let response := LookupResponse.new ((parseIp r.ip).getD unspecifiedIp)
    .IpLocateIo
  let response := { response with
    country := r.country
    continent := r.continent
    country_code := r.country_code
    region := r.subdivision
    postal_code := r.postal_code
    city := r.city
    latitude := r.latitude
    longitude := r.longitude
    time_zone := r.time_zone
    asn_org := r.org
    asn := r.asn }
  let response := match r.threat with
    | some threat => { response with is_proxy := threat.is_proxy }
    | none => response
  response

/-- `ProviderResponse::parse` instantiated at `IpLocateIoResponse`
(`src/lookup/iplocateio.rs` line 35): `serde_json::from_str` with the
error converted as in `IpDataResponse.parse`. -/
def IpLocateIoResponse.parse (deser : Str → Except Str IpLocateIoResponse)
    (input : Str) : Except LookupError IpLocateIoResponse :=
  match deser input with
  | .error e => .error (.ParseError e)
  | .ok deserialized => .ok deserialized

/-- `<IpLocateIo as Provider>::parse_reply` from `src/lookup/iplocateio.rs`
lines 77-80. -/
def IpLocateIo.parse_reply (deser : Str → Except Str IpLocateIoResponse)
    (parseIp : Str → Option IpAddr) (json : Str) : Except LookupError LookupResponse :=
  match IpLocateIoResponse.parse deser json with
  | .error e => .error e
  | .ok response => .ok (response.into_response parseIp)

/-- The concrete adapter objects that `LookupProvider::build` boxes
(`src/lookup/mod.rs` lines 138-157), with the state each constructor
stores: the three key-bearing adapters keep their `Option<String>` key,
`Mock` keeps its IP string, the rest are unit structs. -/
inductive BuiltProvider where
  | FreeIpApi
  | IfConfig
  | IpInfo
  | MyIp
  | IpApiCom
  | IpApiCo
  | IpApiIo
  | IpWhoIs
  | IpBase
  | IpLocateIo
  | IpLeak
  | Mullvad
  | AbstractApi (key : Option Str)
  | IpGeolocation (key : Option Str)
  | IpData (key : Option Str)
  | Mock (ip : Str)
deriving DecidableEq, Repr

/-- `LookupProvider::build` from `src/lookup/mod.rs` lines 138-157. -/
def LookupProvider.build : LookupProvider → BuiltProvider
  | .FreeIpApi => .FreeIpApi
  | .IfConfig => .IfConfig
  | .IpInfo => .IpInfo
  | .MyIp => .MyIp
  | .IpApiCom => .IpApiCom
  | .IpApiCo => .IpApiCo
  | .IpApiIo => .IpApiIo
  | .IpWhoIs => .IpWhoIs
  | .IpBase => .IpBase
  | .IpLocateIo => .IpLocateIo
  | .IpLeak => .IpLeak
  | .Mullvad => .Mullvad
  | .AbstractApi key => .AbstractApi key
  | .IpGeolocation key => .IpGeolocation key
  | .IpData key => .IpData key
  | .Mock ip => .Mock ip

/-- `Provider::get_type` dispatched over the built adapters.  From the
snapshot sources: `IpData` reports `IpData(None)` whatever key it holds
(`src/lookup/ipdata.rs` lines 140-142), `IpLeak` reports `IpLeak`
(`src/lookup/ipleak.rs` lines 79-81), `IpLocateIo` reports `IpLocateIo`
(`src/lookup/iplocateio.rs` lines 82-84).

Modelled from the spec: the remaining adapters' sources are not in the
snapshot (or, for `ifconfig.rs`, predate the `get_type` method); per the
Provider Registry responsibility — report the `ProviderKind` of a built
adapter, where two providers are the same only if kind and key match —
each of them reports its own kind with the state it stores. -/
def BuiltProvider.get_type : BuiltProvider → LookupProvider
  | .FreeIpApi => .FreeIpApi
  | .IfConfig => .IfConfig
  | .IpInfo => .IpInfo
  | .MyIp => .MyIp
  | .IpApiCom => .IpApiCom
  | .IpApiCo => .IpApiCo
  | .IpApiIo => .IpApiIo
  | .IpWhoIs => .IpWhoIs
  | .IpBase => .IpBase
  | .IpLocateIo => .IpLocateIo
  | .IpLeak => .IpLeak
  | .Mullvad => .Mullvad
  | .AbstractApi key => .AbstractApi key
  | .IpGeolocation key => .IpGeolocation key
  | .IpData key => IpData.get_type key
  | .Mock ip => .Mock ip

/-- The `LookupService` struct (`src/lookup/mod.rs` lines 169-171), holding
its boxed provider. -/
structure LookupService where
  provider : BuiltProvider
deriving DecidableEq, Repr

/-- `LookupService::new` from `src/lookup/mod.rs` lines 175-179. -/
def LookupService.new (provider : LookupProvider) : LookupService :=
  { provider := provider.build }

/-- `LookupService::get_provider_type` from `src/lookup/mod.rs` lines
190-192. -/
def LookupService.get_provider_type (self : LookupService) : LookupProvider :=
  self.provider.get_type

/-- Lowercasing does not change whether a character is whitespace. -/
theorem isWs_lowerChar (c : Char) : isWs (lowerChar c) = isWs c := by
  unfold lowerChar
  split <;> rfl

/-- Splitting an all-whitespace suffix produces no words beyond the
current one. -/
theorem wordsAux_all_ws :
    ∀ (w : Str), (∀ c ∈ w, isWs c = true) →
      ∀ (cur : Str), wordsAux cur w = if cur = [] then [] else [cur.reverse] := by
  intro w
  induction w with
  | nil => intro _ cur; rfl
  | cons c cs ih =>
    intro hw cur
    have hc : isWs c = true := hw c (List.mem_cons_self c cs)
    have hcs : ∀ x ∈ cs, isWs x = true := fun x hx => hw x (List.mem_cons_of_mem c hx)
    rcases eq_or_ne cur [] with h | h
    · subst h
      simp [wordsAux, hc, ih hcs]
    · simp [wordsAux, hc, h, ih hcs]

/-- An all-whitespace suffix does not change the word split. -/
theorem wordsAux_append_all_ws :
    ∀ (w : Str), (∀ c ∈ w, isWs c = true) →
      ∀ (l cur : Str), wordsAux cur (l ++ w) = wordsAux cur l := by
  intro w hw l
  induction l with
  | nil =>
    intro cur
    simp only [List.nil_append]
    rw [wordsAux_all_ws w hw cur]
    rcases eq_or_ne cur [] with h | h
    · subst h; rfl
    · simp [wordsAux, h]
  | cons c cs ih =>
    intro cur
    by_cases hc : isWs c
    · rcases eq_or_ne cur [] with h | h
      · subst h; simp [wordsAux, hc, ih]
      · simp [wordsAux, hc, h, ih]
    · simp [wordsAux, hc, ih]

/-- Leading whitespace does not change the word split. -/
theorem wordsAux_dropWhile :
    ∀ (l : Str), wordsAux [] (l.dropWhile isWs) = wordsAux [] l := by
  intro l
  induction l with
  | nil => rfl
  | cons c cs ih =>
    by_cases hc : isWs c
    · simp [List.dropWhile_cons, hc, wordsAux, ih]
    · simp [List.dropWhile_cons, hc]

/-- Right-trimming does not change the word split. -/
theorem words_trimRight (s : Str) : words (trimRight s) = words s := by
  have hmem : ∀ c ∈ (s.reverse.takeWhile isWs).reverse, isWs c = true := by
    intro c hc
    rw [List.mem_reverse] at hc
    exact List.mem_takeWhile_imp hc
  have hdecomp : s = trimRight s ++ (s.reverse.takeWhile isWs).reverse := by
    unfold trimRight
    conv_lhs =>
      rw [← List.reverse_reverse s,
        ← List.takeWhile_append_dropWhile (p := isWs) (l := s.reverse),
        List.reverse_append]
  have happ := wordsAux_append_all_ws _ hmem (trimRight s) []
  unfold words
  rw [← happ, ← hdecomp]

/-- Trimming does not change the word split: `split_whitespace` already
discards edge whitespace. -/
theorem words_trim (s : Str) : words (trim s) = words s := by
  unfold trim
  rw [words_trimRight]
  unfold words trimLeft
  exact wordsAux_dropWhile s

/-- A character map that preserves whitespace-status commutes with the
word split. -/
theorem wordsAux_map {f : Char → Char} (hf : ∀ c, isWs (f c) = isWs c) :
    ∀ (l cur : Str),
      wordsAux (cur.map f) (l.map f) = (wordsAux cur l).map (List.map f) := by
  intro l
  induction l with
  | nil =>
    intro cur
    rcases eq_or_ne cur [] with h | h
    · subst h; simp [wordsAux]
    · simp [wordsAux, h, List.map_eq_nil_iff]
  | cons c cs ih =>
    intro cur
    simp only [List.map_cons]
    by_cases hc : isWs c = true
    · have hfc : isWs (f c) = true := by rw [hf]; exact hc
      rcases eq_or_ne cur [] with h | h
      · subst h
        simpa [wordsAux, hc, hfc] using ih []
      · simp only [wordsAux, hc, hfc, if_true]
        rw [if_neg h, if_neg (by simpa [List.map_eq_nil_iff] using h)]
        have := ih []
        simp only [List.map_nil] at this
        simp [this]
    · have hc' : isWs c = false := by simpa using hc
      have hfc : isWs (f c) = false := by rw [hf]; exact hc'
      simp only [wordsAux, hc', hfc, Bool.false_eq_true, if_false]
      rw [← List.map_cons]
      exact ih (c :: cur)

/-- `words` commutes with a whitespace-preserving character map. -/
theorem words_map {f : Char → Char} (hf : ∀ c, isWs (f c) = isWs c) (l : Str) :
    words (l.map f) = (words l).map (List.map f) := by
  have := wordsAux_map hf l []
  simpa [words] using this

/-- `from_str` normalized: the whitespace tokens of the raw input,
individually lowercased, are fed to the provider-name match. -/
theorem fromStr_eq_tokens (s : Str) :
    fromStr s = parseTokens ((words s).map (List.map lowerChar)) := by
  unfold fromStr
  rw [words_map isWs_lowerChar, words_trim]

/-- `from_str` normalized the other way: it only depends on the
character-wise lowercased input. -/
theorem fromStr_eq_lowered (s : Str) :
    fromStr s = parseTokens (words (s.map lowerChar)) := by
  rw [fromStr_eq_tokens, ← words_map isWs_lowerChar]

/-- Splitting a string that starts with a whitespace-free word followed by
a space: the word is the first token. -/
theorem wordsAux_token_space :
    ∀ (l₁ : Str), (∀ c ∈ l₁, isWs c = false) →
      ∀ (cur : Str), cur.reverse ++ l₁ ≠ [] →
        ∀ (l₂ : Str),
          wordsAux cur (l₁ ++ ' ' :: l₂) = (cur.reverse ++ l₁) :: words l₂ := by
  intro l₁
  induction l₁ with
  | nil =>
    intro _ cur hne l₂
    have hcur : cur ≠ [] := by
      rintro rfl
      exact hne rfl
    simp [wordsAux, words, hcur, (by decide : isWs ' ' = true)]
  | cons c l₁ ih =>
    intro h cur hne l₂
    have hc : isWs c = false := h c (List.mem_cons_self c l₁)
    have h' : ∀ x ∈ l₁, isWs x = false := fun x hx => h x (List.mem_cons_of_mem c hx)
    have hne' : (c :: cur).reverse ++ l₁ ≠ [] := by simp
    calc wordsAux cur ((c :: l₁) ++ ' ' :: l₂)
        = wordsAux (c :: cur) (l₁ ++ ' ' :: l₂) := by
          simp [wordsAux, hc]
      _ = ((c :: cur).reverse ++ l₁) :: words l₂ := ih h' (c :: cur) hne' l₂
      _ = (cur.reverse ++ c :: l₁) :: words l₂ := by simp

/-- `words` of `word ++ " " ++ rest` starts with `word`. -/
theorem words_token_space (l₁ : Str) (h : ∀ c ∈ l₁, isWs c = false)
    (hne : l₁ ≠ []) (l₂ : Str) :
    words (l₁ ++ ' ' :: l₂) = l₁ :: words l₂ := by
  have := wordsAux_token_space l₁ h [] (by simpa using hne) l₂
  simpa [words] using this

/-- Splitting `word ++ " " ++ rest` where the word is a lowercase
whitespace-free provider name: `from_str` sees the name as first token. -/
theorem fromStr_name_space (n t : Str) (h1 : ∀ c ∈ n, isWs c = false)
    (h2 : n ≠ []) (h3 : n.map lowerChar = n) :
    fromStr (n ++ ' ' :: t) = parseTokens (n :: words (t.map lowerChar)) := by
  rw [fromStr_eq_lowered]
  have hmap : (n ++ ' ' :: t).map lowerChar = n ++ ' ' :: t.map lowerChar := by
    rw [List.map_append, List.map_cons, h3]
    rfl
  rw [hmap, words_token_space n h1 h2]

/-- C1 (amended): for every input string, `LookupProvider::from_str`
matches the first whitespace-separated token case-insensitively against
the closed provider-name set, fails with the unknown-provider error
(`GenericError "Provider not found: ..."`) when that name is not
recognized, fails with `GenericError "No provider given"` when the input
has no token, and, when a second whitespace-separated token is present,
stores its lowercased form as the optional key for the key-bearing kinds
`abstract`, `ipgeolocation` and `ipdata`. -/
theorem from_str_token_classification :
    ∀ s : Str,
      (words s = [] →
        fromStr s = .error (.GenericError ("No provider given".toList)))
      ∧ (∀ p rest, words s = p :: rest →
          (p.map lowerChar ∉ providerNames →
            fromStr s = .error (.GenericError (("Provider not found: ".toList) ++ p.map lowerChar)))
          ∧ (p.map lowerChar = "freeipapi".toList → fromStr s = .ok .FreeIpApi)
          ∧ (p.map lowerChar = "ifconfig".toList → fromStr s = .ok .IfConfig)
          ∧ (p.map lowerChar = "ipinfo".toList → fromStr s = .ok .IpInfo)
          ∧ (p.map lowerChar = "myip".toList → fromStr s = .ok .MyIp)
          ∧ (p.map lowerChar = "ipapicom".toList → fromStr s = .ok .IpApiCom)
          ∧ (p.map lowerChar = "ipwhois".toList → fromStr s = .ok .IpWhoIs)
          ∧ (p.map lowerChar = "ipapico".toList → fromStr s = .ok .IpApiCo)
          ∧ (p.map lowerChar = "ipapiio".toList → fromStr s = .ok .IpApiIo)
          ∧ (p.map lowerChar = "ipbase".toList → fromStr s = .ok .IpBase)
          ∧ (p.map lowerChar = "iplocateio".toList → fromStr s = .ok .IpLocateIo)
          ∧ (p.map lowerChar = "ipleak".toList → fromStr s = .ok .IpLeak)
          ∧ (p.map lowerChar = "mullvad".toList → fromStr s = .ok .Mullvad)
          ∧ (p.map lowerChar = "abstract".toList →
              fromStr s = .ok (.AbstractApi (rest.head?.map (List.map lowerChar))))
          ∧ (p.map lowerChar = "ipgeolocation".toList →
              fromStr s = .ok (.IpGeolocation (rest.head?.map (List.map lowerChar))))
          ∧ (p.map lowerChar = "ipdata".toList →
              fromStr s = .ok (.IpData (rest.head?.map (List.map lowerChar))))) := by
  intro s
  constructor
  · intro h
    rw [fromStr_eq_tokens, h]
    rfl
  · intro p rest h
    rw [fromStr_eq_tokens, h]
    simp only [List.map_cons]
    constructor
    · intro hq
      simp only [providerNames, List.mem_cons, List.not_mem_nil, or_false, not_or] at hq
      obtain ⟨h1, h2, h3, h4, h5, h6, h7, h8, h9, h10, h11, h12, h13, h14, h15⟩ := hq
      simp at h1 h2 h3 h4 h5 h6 h7 h8 h9 h10 h11 h12 h13 h14 h15
      simp [parseTokens, h1, h2, h3, h4, h5, h6, h7, h8, h9, h10, h11, h12, h13, h14, h15]
    · refine ⟨?_, ?_, ?_, ?_, ?_, ?_, ?_, ?_, ?_, ?_, ?_, ?_, ?_, ?_, ?_⟩ <;>
        (intro hq; rw [hq]; simp +decide [parseTokens, List.head?_map])

/-- C1 counterexample: the second whitespace-separated token is not stored
verbatim as the key — `from_str("ipdata ABC")` stores `"abc"`, the
lowercased form, not `"ABC"`. -/
theorem from_str_key_not_verbatim :
    fromStr ("ipdata ABC".toList) = .ok (.IpData (some ("abc".toList)))
    ∧ fromStr ("ipdata ABC".toList) ≠ .ok (.IpData (some ("ABC".toList))) := by
  constructor <;> decide

/-- C1 witness: `from_str("ipdata abc")` recognizes the provider name and
stores the key `"abc"`. -/
theorem from_str_token_classification_witness :
    fromStr ("ipdata abc".toList) = .ok (.IpData (some ("abc".toList))) := by
  have h := (from_str_token_classification ("ipdata abc".toList)).2
    ("ipdata".toList) ["abc".toList] (by decide)
  have hk := h.2.2.2.2.2.2.2.2.2.2.2.2.2.2.2 (by decide)
  have hrest : (["abc".toList] : List Str).head?.map (List.map lowerChar)
      = some ("abc".toList) := by decide
  rw [hrest] at hk
  exact hk

/-- C9: `from_str` lowercases the entire input before tokenizing, so the
key stored for `"ipdata ABC"` is the lowercased `"abc"`, and the parse
result is invariant under letter-case changes anywhere in the input,
including inside the credential token: any two inputs with the same
character-wise lowercasing parse identically. -/
theorem from_str_lowercases_whole_input :
    fromStr ("ipdata ABC".toList) = .ok (.IpData (some ("abc".toList)))
    ∧ ∀ s t : Str, s.map lowerChar = t.map lowerChar → fromStr s = fromStr t := by
  refine ⟨by decide, ?_⟩
  intro s t h
  rw [fromStr_eq_lowered, fromStr_eq_lowered, h]

/-- C9 witness: `"IpData KEY"` and `"ipdata key"` have the same
lowercasing and parse to the same provider. -/
theorem from_str_lowercases_whole_input_witness :
    fromStr ("IpData KEY".toList) = fromStr ("ipdata key".toList)
    ∧ fromStr ("ipdata key".toList) = .ok (.IpData (some ("key".toList))) :=
  ⟨from_str_lowercases_whole_input.2 ("IpData KEY".toList) ("ipdata key".toList) (by decide),
   by decide⟩

/-- C10: for every recognized keyless provider name, anything after the
name and a space — in particular a second whitespace-separated token — is
silently discarded: the parse succeeds with the keyless variant, no error
and no key stored anywhere. -/
theorem keyless_provider_discards_second_token :
    ∀ t : Str,
      fromStr ("freeipapi".toList ++ ' ' :: t) = .ok .FreeIpApi
      ∧ fromStr ("ifconfig".toList ++ ' ' :: t) = .ok .IfConfig
      ∧ fromStr ("ipinfo".toList ++ ' ' :: t) = .ok .IpInfo
      ∧ fromStr ("myip".toList ++ ' ' :: t) = .ok .MyIp
      ∧ fromStr ("ipapicom".toList ++ ' ' :: t) = .ok .IpApiCom
      ∧ fromStr ("ipwhois".toList ++ ' ' :: t) = .ok .IpWhoIs
      ∧ fromStr ("ipapico".toList ++ ' ' :: t) = .ok .IpApiCo
      ∧ fromStr ("ipapiio".toList ++ ' ' :: t) = .ok .IpApiIo
      ∧ fromStr ("ipbase".toList ++ ' ' :: t) = .ok .IpBase
      ∧ fromStr ("iplocateio".toList ++ ' ' :: t) = .ok .IpLocateIo
      ∧ fromStr ("ipleak".toList ++ ' ' :: t) = .ok .IpLeak
      ∧ fromStr ("mullvad".toList ++ ' ' :: t) = .ok .Mullvad := by
  intro t
  refine ⟨?_, ?_, ?_, ?_, ?_, ?_, ?_, ?_, ?_, ?_, ?_, ?_⟩ <;>
    · rw [fromStr_name_space _ _ (by decide) (by decide) (by decide)]
      simp +decide [parseTokens]

/-- C2: `handle_response` classifies every HTTP response outcome: status
200 yields the body text, status 429 yields a `TooManyRequests` error, any
other status yields a `RequestStatus` error, and a failed request (DNS,
connect, timeout — `reqwest::Error`) yields the transport error
`ReqwestError`. -/
theorem handle_response_classification :
    ∀ (r : Response) (b e : Str),
      (r.status = 200 → r.text = .ok b → handle_response (.ok r) = .ok b)
      ∧ (r.status = 429 →
          ∃ m, handle_response (.ok r) = .error (.TooManyRequests m))
      ∧ (r.status ≠ 200 → r.status ≠ 429 →
          ∃ m, handle_response (.ok r) = .error (.RequestStatus m))
      ∧ handle_response (.error e) = .error (.ReqwestError e) := by
  intro r b e
  refine ⟨?_, ?_, ?_, rfl⟩
  · intro hs ht
    simp [handle_response, hs, ht]
  · intro hs
    exact ⟨("Too many requests: ".toList) ++ statusRepr r.status,
      by simp [handle_response, hs]⟩
  · intro h200 h429
    exact ⟨("Status: ".toList) ++ statusRepr r.status,
      by simp [handle_response, h200, h429]⟩

/-- C2 witness: the four classifications at concrete responses — a 200
with body, a 429, a 503, and a failed request. -/
theorem handle_response_classification_witness :
    handle_response (.ok { status := 200, text := .ok ("body".toList) }) = .ok ("body".toList)
    ∧ (∃ m, handle_response (.ok { status := 429, text := .ok [] }) = .error (.TooManyRequests m))
    ∧ (∃ m, handle_response (.ok { status := 503, text := .ok [] }) = .error (.RequestStatus m))
    ∧ handle_response (.error ("dns failure".toList)) = .error (.ReqwestError ("dns failure".toList)) :=
  ⟨(handle_response_classification { status := 200, text := .ok ("body".toList) }
      ("body".toList) []).1 rfl rfl,
   (handle_response_classification { status := 429, text := .ok [] } [] []).2.1 rfl,
   (handle_response_classification { status := 503, text := .ok [] } [] []).2.2.1
     (by decide) (by decide),
   (handle_response_classification { status := 200, text := .ok [] } []
      ("dns failure".toList)).2.2.2⟩

/-- C3: `LookupService::make_request` succeeds exactly when the provider's
API request succeeds and its parser accepts the body; an API-request error
is propagated unchanged (for every parser, so the parser is never
consulted); and a body rejected by the deserializer makes
`IpData::parse_reply` fail with a `ParseError`. -/
theorem make_request_pipeline :
    (∀ (p : Provider) (r : LookupResponse),
      LookupService.make_request p = .ok r ↔
        ∃ body, p.make_api_request = .ok body ∧ p.parse_reply body = .ok r)
    ∧ (∀ (p : Provider) (e : LookupError),
        p.make_api_request = .error e → LookupService.make_request p = .error e)
    ∧ (∀ (key : Option Str) (deser : Str → Except Str IpDataResponse)
        (parseIp : Str → Option IpAddr) (json e : Str),
        deser json = .error e →
          IpData.parse_reply key deser parseIp json = .error (.ParseError e)) := by
  refine ⟨?_, ?_, ?_⟩
  · intro p r
    constructor
    · intro h
      cases hapi : p.make_api_request with
      | error e => rw [LookupService.make_request, hapi] at h; cases h
      | ok body =>
        rw [LookupService.make_request, hapi] at h
        exact ⟨body, rfl, h⟩
    · rintro ⟨body, hapi, hparse⟩
      rw [LookupService.make_request, hapi]
      exact hparse
  · intro p e h
    rw [LookupService.make_request, h]
  · intro key deser parseIp json e h
    rw [IpData.parse_reply, IpDataResponse.parse, h]

/-- C3 witness: the pipeline at a concrete provider whose request yields a
fixed body accepted by its parser, at one whose request fails, and at a
deserializer rejection. -/
theorem make_request_pipeline_witness :
    LookupService.make_request
      { make_api_request := .ok ("body".toList),
        parse_reply := fun b => .ok (LookupResponse.new unspecifiedIp .Mullvad),
        get_type := .Mullvad } = .ok (LookupResponse.new unspecifiedIp .Mullvad)
    ∧ LookupService.make_request
        { make_api_request := .error (.RequestStatus ("Status: 500".toList)),
          parse_reply := fun b => .ok (LookupResponse.new unspecifiedIp .Mullvad),
          get_type := .Mullvad } = .error (.RequestStatus ("Status: 500".toList))
    ∧ IpData.parse_reply none (fun b => .error ("bad json".toList)) (fun b => none)
        ("\x7b".toList) = .error (.ParseError ("bad json".toList)) :=
  ⟨(make_request_pipeline.1 _ _).2 ⟨"body".toList, rfl, rfl⟩,
   make_request_pipeline.2.1 _ _ rfl,
   make_request_pipeline.2.2 none _ _ ("\x7b".toList) _ rfl⟩

/-- C5: `LookupResponse::new` fills `ip` and `provider` from its arguments
and leaves every optional field — continent, country, country code,
region, postal code, city, latitude, longitude, time zone, ASN, ASN
organization, hostname, proxy flag — empty. -/
theorem lookup_response_new_defaults :
    ∀ (ip : IpAddr) (provider : LookupProvider),
      (LookupResponse.new ip provider).ip = ip
      ∧ (LookupResponse.new ip provider).provider = provider
      ∧ (LookupResponse.new ip provider).continent = none
      ∧ (LookupResponse.new ip provider).country = none
      ∧ (LookupResponse.new ip provider).country_code = none
      ∧ (LookupResponse.new ip provider).region = none
      ∧ (LookupResponse.new ip provider).postal_code = none
      ∧ (LookupResponse.new ip provider).city = none
      ∧ (LookupResponse.new ip provider).latitude = none
      ∧ (LookupResponse.new ip provider).longitude = none
      ∧ (LookupResponse.new ip provider).time_zone = none
      ∧ (LookupResponse.new ip provider).asn = none
      ∧ (LookupResponse.new ip provider).asn_org = none
      ∧ (LookupResponse.new ip provider).hostname = none
      ∧ (LookupResponse.new ip provider).is_proxy = none := by
  intro ip provider
  exact ⟨rfl, rfl, rfl, rfl, rfl, rfl, rfl, rfl, rfl, rfl, rfl, rfl, rfl, rfl, rfl⟩

/-- An `IpDataResponse` whose `ip` field is not a parseable address and
whose optional fields are all absent. -/
def sampleIpDataReply : IpDataResponse where
  ip := "not an ip".toList
  is_eu := none
  city := none
  region := none
  region_code := none
  region_type := none
  country_name := none
  country_code := none
  continent_name := none
  continent_code := none
  longitude := none
  latitude := none
  postal := none
  calling_code := none
  asn := none
  carrier := none
  time_zone := none
  threat := none

/-- An `IpLeakResponse` with an unparseable `ip` and no optional fields. -/
def sampleIpLeakReply : IpLeakResponse where
  ip := "not an ip".toList
  city_name := none
  region_name := none
  region_code := none
  country_name := none
  country_code := none
  continent_name := none
  continent_code := none
  postal_code := none
  latitude := none
  longitude := none
  time_zone := none
  isp_name := none
  as_number := none
  reverse := none

/-- An `IpLocateIoResponse` with an unparseable `ip` and no optional
fields. -/
def sampleIpLocateIoReply : IpLocateIoResponse where
  ip := "not an ip".toList
  country := none
  country_code := none
  is_eu := none
  city := none
  continent := none
  latitude := none
  longitude := none
  time_zone := none
  postal_code := none
  subdivision := none
  org := none
  asn := none
  threat := none

/-- C4: for every provider reply whose `ip` string does not parse as an IP
address, the adapter's `into_response` still produces a complete record —
its `ip` is the unspecified address `0.0.0.0` rather than an error — for
each of the `IpData`, `IpLeak` and `IpLocateIo` adapters. -/
theorem into_response_unparseable_ip_degrades :
    ∀ (parseIp : Str → Option IpAddr),
      (∀ r : IpDataResponse, parseIp r.ip = none →
        (r.into_response parseIp).ip = unspecifiedIp)
      ∧ (∀ r : IpLeakResponse, parseIp r.ip = none →
          (r.into_response parseIp).ip = unspecifiedIp)
      ∧ (∀ r : IpLocateIoResponse, parseIp r.ip = none →
          (r.into_response parseIp).ip = unspecifiedIp) := by
  intro parseIp
  refine ⟨?_, ?_, ?_⟩
  · intro r h
    cases htz : r.time_zone <;> cases hasn : r.asn <;> cases hth : r.threat <;>
      simp [IpDataResponse.into_response, LookupResponse.new, h, htz, hasn, hth]
  · intro r h
    cases hasn : r.as_number <;>
      simp [IpLeakResponse.into_response, LookupResponse.new, h, hasn]
  · intro r h
    cases hth : r.threat <;>
      simp [IpLocateIoResponse.into_response, LookupResponse.new, h, hth]

/-- C4 witness: the three adapters at concrete replies whose `ip` is
`"not an ip"`, under an IP parser that rejects every string. -/
theorem into_response_unparseable_ip_degrades_witness :
    (sampleIpDataReply.into_response (fun s => none)).ip = unspecifiedIp
    ∧ (sampleIpLeakReply.into_response (fun s => none)).ip = unspecifiedIp
    ∧ (sampleIpLocateIoReply.into_response (fun s => none)).ip = unspecifiedIp :=
  ⟨(into_response_unparseable_ip_degrades (fun s => none)).1 sampleIpDataReply rfl,
   (into_response_unparseable_ip_degrades (fun s => none)).2.1 sampleIpLeakReply rfl,
   (into_response_unparseable_ip_degrades (fun s => none)).2.2 sampleIpLocateIoReply rfl⟩

/-- C6 counterexample: building a `LookupService` from
`IpData(Some("abc"))` and asking its provider type returns `IpData(None)`,
not the original key-bearing value. -/
theorem get_provider_type_drops_ipdata_key :
    (LookupService.new (.IpData (some ("abc".toList)))).get_provider_type = .IpData none
    ∧ (LookupService.new (.IpData (some ("abc".toList)))).get_provider_type
        ≠ .IpData (some ("abc".toList)) := by
  constructor <;> decide

/-- C6 (amended): `LookupService::new(k).get_provider_type()` returns `k`
itself for every variant except `IpData`, whose adapter reports
`IpData(None)` whatever key it was built with. -/
theorem build_get_provider_type_round_trip :
    ∀ p : LookupProvider,
      (LookupService.new p).get_provider_type =
        match p with
        | .IpData _ => .IpData none
        | q => q := by
  intro p
  cases p <;> rfl

/-- The `IpData` adapter stamps `IpData(None)` as the provider of every
record it produces. -/
theorem ipdata_into_response_provider (parseIp : Str → Option IpAddr)
    (r : IpDataResponse) : (r.into_response parseIp).provider = .IpData none := by
  cases htz : r.time_zone <;> cases hasn : r.asn <;> cases hth : r.threat <;>
    simp [IpDataResponse.into_response, LookupResponse.new, htz, hasn, hth]

/-- The `IpLeak` adapter stamps `IpLeak` as the provider of every record
it produces. -/
theorem ipleak_into_response_provider (parseIp : Str → Option IpAddr)
    (r : IpLeakResponse) : (r.into_response parseIp).provider = .IpLeak := by
  cases hasn : r.as_number <;>
    simp [IpLeakResponse.into_response, LookupResponse.new, hasn]

/-- The `IpLocateIo` adapter stamps `IpLocateIo` as the provider of every
record it produces. -/
theorem iplocateio_into_response_provider (parseIp : Str → Option IpAddr)
    (r : IpLocateIoResponse) : (r.into_response parseIp).provider = .IpLocateIo := by
  cases hth : r.threat <;>
    simp [IpLocateIoResponse.into_response, LookupResponse.new, hth]

/-- C7 (amended): every record accepted by an adapter's `parse_reply`
carries that adapter's own provider variant, but without the adapter's API
key: the `IpData` adapter stamps `IpData(None)` regardless of the key it
was built with, and the keyless `IpLeak` and `IpLocateIo` adapters stamp
their own variant. -/
theorem parse_reply_provider_attribution :
    (∀ (key : Option Str) (deser : Str → Except Str IpDataResponse)
      (parseIp : Str → Option IpAddr) (json : Str) (r : LookupResponse),
      IpData.parse_reply key deser parseIp json = .ok r → r.provider = .IpData none)
    ∧ (∀ (deser : Str → Except Str IpLeakResponse)
        (parseIp : Str → Option IpAddr) (json : Str) (r : LookupResponse),
        IpLeak.parse_reply deser parseIp json = .ok r → r.provider = .IpLeak)
    ∧ (∀ (deser : Str → Except Str IpLocateIoResponse)
        (parseIp : Str → Option IpAddr) (json : Str) (r : LookupResponse),
        IpLocateIo.parse_reply deser parseIp json = .ok r → r.provider = .IpLocateIo) := by
  refine ⟨?_, ?_, ?_⟩
  · intro key deser parseIp json r h
    cases hd : deser json with
    | error e => simp [IpData.parse_reply, IpDataResponse.parse, hd] at h
    | ok v =>
      simp [IpData.parse_reply, IpDataResponse.parse, hd] at h
      rw [← h]
      exact ipdata_into_response_provider parseIp v
  · intro deser parseIp json r h
    cases hd : deser json with
    | error e => simp [IpLeak.parse_reply, IpLeakResponse.parse, hd] at h
    | ok v =>
      simp [IpLeak.parse_reply, IpLeakResponse.parse, hd] at h
      rw [← h]
      exact ipleak_into_response_provider parseIp v
  · intro deser parseIp json r h
    cases hd : deser json with
    | error e => simp [IpLocateIo.parse_reply, IpLocateIoResponse.parse, hd] at h
    | ok v =>
      simp [IpLocateIo.parse_reply, IpLocateIoResponse.parse, hd] at h
      rw [← h]
      exact iplocateio_into_response_provider parseIp v

/-- C7 counterexample: an `IpData` adapter built with key `"abc"` accepts
a reply, and the resulting record's provider is `IpData(None)`, not
`IpData(Some("abc"))`. -/
theorem ipdata_parse_reply_ignores_adapter_key :
    IpData.parse_reply (some ("abc".toList)) (fun j => .ok sampleIpDataReply)
        (fun s => none) []
      = .ok (sampleIpDataReply.into_response (fun s => none))
    ∧ (sampleIpDataReply.into_response (fun s => none)).provider = .IpData none
    ∧ LookupProvider.IpData none ≠ .IpData (some ("abc".toList)) :=
  ⟨rfl, rfl, by decide⟩

/-- C7 witness: provider attribution at concrete accepted replies for the
three adapters. -/
theorem parse_reply_provider_attribution_witness :
    (sampleIpDataReply.into_response (fun s => none)).provider = .IpData none
    ∧ (sampleIpLeakReply.into_response (fun s => none)).provider = .IpLeak
    ∧ (sampleIpLocateIoReply.into_response (fun s => none)).provider = .IpLocateIo :=
  ⟨parse_reply_provider_attribution.1 (some ("abc".toList))
      (fun j => .ok sampleIpDataReply) (fun s => none) [] _ rfl,
   parse_reply_provider_attribution.2.1
      (fun j => .ok sampleIpLeakReply) (fun s => none) [] _ rfl,
   parse_reply_provider_attribution.2.2
      (fun j => .ok sampleIpLocateIoReply) (fun s => none) [] _ rfl⟩

/-- C8: the derived equality on `LookupProvider` holds exactly for the
same variant with identical payloads; in particular `IpData(Some("abc"))`
equals neither `IpData(None)` nor `IpData(Some("xyz"))`. -/
theorem provider_equality_exact :
    (∀ a b : LookupProvider, a.rustEq b = true ↔ a = b)
    ∧ LookupProvider.rustEq (.IpData (some ("abc".toList))) (.IpData none) = false
    ∧ LookupProvider.rustEq (.IpData (some ("abc".toList)))
        (.IpData (some ("xyz".toList))) = false := by
  refine ⟨?_, by decide, by decide⟩
  intro a b
  cases a <;> cases b <;> simp [LookupProvider.rustEq]
